import Mathlib

/-
Verification of the browser-side submit handler in static/js/script.js.

The handler is modelled as a pure function from the DOM state at click
time plus a network outcome to the list of observable effects it
performs, in order: alerts, status-text writes, and HTTP requests.
-/

set_option maxRecDepth 4000

/-- Whitespace characters removed by the JavaScript String.trim method
(ECMAScript WhiteSpace and LineTerminator code points). -/
def isJsWhitespace (c : Char) : Bool :=
  c == '\t' || c == '\n' || c.toNat == 11 || c.toNat == 12 || c == '\r' ||
  c == ' ' || c.toNat == 0xA0 || c.toNat == 0x1680 ||
  (0x2000 ≤ c.toNat && c.toNat ≤ 0x200A) ||
  c.toNat == 0x2028 || c.toNat == 0x2029 || c.toNat == 0x202F ||
  c.toNat == 0x205F || c.toNat == 0x3000 || c.toNat == 0xFEFF

/-- Drop leading whitespace from a character list. -/
def dropWhileWs : List Char → List Char
  | [] => []
  | c :: cs => if isJsWhitespace c then dropWhileWs cs else c :: cs

/-- Model of JavaScript String.prototype.trim: remove leading and
trailing whitespace. -/
def jsTrim (s : String) : String :=
  String.mk ((dropWhileWs (dropWhileWs s.data).reverse).reverse)

/-- JSON values, the possible results of parsing a response body. -/
inductive JsValue where
  | null : JsValue
  | bool (b : Bool) : JsValue
  | num (n : Int) : JsValue
  | str (s : String) : JsValue
  | arr (xs : List JsValue) : JsValue
  | obj (fields : List (String × JsValue)) : JsValue

/-- Hexadecimal digit character (lowercase letters). -/
def hexDigitChar (n : Nat) : Char :=
  if n < 10 then Char.ofNat (48 + n) else Char.ofNat (87 + n)

/-- Four-digit hexadecimal rendering used in JSON \u escapes. -/
def hex4 (n : Nat) : String :=
  String.mk [hexDigitChar (n / 4096 % 16), hexDigitChar (n / 256 % 16),
             hexDigitChar (n / 16 % 16), hexDigitChar (n % 16)]

/-- JSON string escaping of one character, as JSON.stringify performs it. -/
def escapeChar (c : Char) : String :=
  if c = '"' then "\\\""
  else if c = '\\' then "\\\\"
  else if c = '\n' then "\\n"
  else if c = '\r' then "\\r"
  else if c = '\t' then "\\t"
  else if c.toNat = 8 then "\\b"
  else if c.toNat = 12 then "\\f"
  else if c.toNat < 32 then "\\u" ++ hex4 c.toNat
  else String.singleton c

/-- JSON quoting of a string: surrounding quotes plus escaping. -/
def quoteString (s : String) : String :=
  "\"" ++ String.join (s.data.map escapeChar) ++ "\""

mutual

/-- Model of JSON.stringify on a JSON value. -/
def jsonStringify : JsValue → String
  | JsValue.null => "null"
  | JsValue.bool true => "true"
  | JsValue.bool false => "false"
  | JsValue.num n => toString n
  | JsValue.str s => quoteString s
  | JsValue.arr xs => "[" ++ stringifyElems xs ++ "]"
  | JsValue.obj fs => "\x7b" ++ stringifyFields fs ++ "\x7d"

/-- Comma-separated serialization of array elements. -/
def stringifyElems : List JsValue → String
  | [] => ""
  | [x] => jsonStringify x
  | x :: y :: xs => jsonStringify x ++ "," ++ stringifyElems (y :: xs)

/-- Comma-separated serialization of object fields. -/
def stringifyFields : List (String × JsValue) → String
  | [] => ""
  | [(k, v)] => quoteString k ++ ":" ++ jsonStringify v
  | (k, v) :: f :: fs =>
      quoteString k ++ ":" ++ jsonStringify v ++ "," ++ stringifyFields (f :: fs)

end

/-- Association lookup of a field in a parsed JSON object. -/
def lookupField : List (String × JsValue) → String → Option JsValue
  | [], _ => none
  | (k, v) :: rest, p => if k = p then some v else lookupField rest p

/-- JavaScript property read `v[p]`: reading a property of null throws a
TypeError; on an object it yields the field or undefined (none); on any
other JSON value it yields undefined without throwing. -/
def getProp : JsValue → String → Except String (Option JsValue)
  | JsValue.null, p =>
      Except.error ("Cannot read properties of null (reading " ++ p ++ ")")
  | JsValue.obj fields, p => Except.ok (lookupField fields p)
  | _, _ => Except.ok none

/-- JavaScript truthiness of a property-read result (none is undefined). -/
def truthy : Option JsValue → Bool
  | none => false
  | some JsValue.null => false
  | some (JsValue.bool b) => b
  | some (JsValue.num n) => n != 0
  | some (JsValue.str s) => s != ""
  | some (JsValue.arr _) => true
  | some (JsValue.obj _) => true

/-- The DOM state the handler reads and writes: the two input values and
the text content of the response display element. -/
structure Dom where
  phoneValue : String
  messageValue : String
  responseText : String

/-- An outbound HTTP request as issued by fetch. -/
structure Request where
  url : String
  method : String
  headers : List (String × String)
  body : String
deriving DecidableEq

/-- One observable effect of a handler invocation. -/
inductive Event where
  | alert (msg : String) : Event
  | setStatus (s : String) : Event
  | request (r : Request) : Event
deriving DecidableEq

/-- The outcome of the awaited fetch plus res.json(): either some stage
(request issuance, await, body parsing) throws an error carrying a
message, or a parsed JSON value is produced. -/
inductive FetchOutcome where
  | throws (msg : String) : FetchOutcome
  | value (v : JsValue) : FetchOutcome

def alertMessage : String := "يرجى إدخال رقم واتساب والنص!"

def sendingMessage : String := "جارٍ الإرسال..."

def successMessage : String := "تم الإرسال بنجاح!"

def failureMessage : String := "حدث خطأ أثناء الإرسال."

def errorTag : String := "خطأ: "

def inboundPath : String := "/inbound"

/-- The fetch call of the handler: POST /inbound with a JSON
content-type header and body JSON.stringify of the object with the two
trimmed values under keys from and text. -/
def inboundRequest (phone text : String) : Request :=
  { url := inboundPath
    method := "POST"
    headers := [("Content-Type", "application/json")]
    body := jsonStringify (JsValue.obj
      [("from", JsValue.str phone), ("text", JsValue.str text)]) }

/-- The click handler of script.js as an effect trace. It trims both
input values; if either is empty it alerts and returns; otherwise it
writes the in-progress status, issues the POST, and on the resolved
outcome either writes success or failure depending on the truthiness of
the ok property of the parsed body, or writes the prefixed error message
when any awaited step (or the property read on the parsed body) throws. -/
def runHandler (d : Dom) (net : FetchOutcome) : List Event :=
  let phone := jsTrim d.phoneValue
  let text := jsTrim d.messageValue
  if phone = "" ∨ text = "" then
    [Event.alert alertMessage]
  else
    Event.setStatus sendingMessage ::
    Event.request (inboundRequest phone text) ::
    (match net with
     | FetchOutcome.throws msg => [Event.setStatus (errorTag ++ msg)]
     | FetchOutcome.value v =>
       match getProp v "ok" with
       | Except.error e => [Event.setStatus (errorTag ++ e)]
       | Except.ok okVal =>
         if truthy okVal then [Event.setStatus successMessage]
         else [Event.setStatus failureMessage])

/-- Effect of one event on the DOM: only status writes change it. -/
def applyEvent (d : Dom) (e : Event) : Dom :=
  match e with
  | Event.setStatus s => { d with responseText := s }
  | _ => d

/-- The DOM state after the handler invocation completes. -/
def runDom (d : Dom) (net : FetchOutcome) : Dom :=
  (runHandler d net).foldl applyEvent d

/-- The requests issued during an invocation, in order. -/
def requestsOf (events : List Event) : List Request :=
  events.filterMap (fun e => match e with
    | Event.request r => some r
    | _ => none)

/-- The status-text writes performed during an invocation, in order. -/
def statusWrites (events : List Event) : List String :=
  events.filterMap (fun e => match e with
    | Event.setStatus s => some s
    | _ => none)

/-- The alerts shown during an invocation, in order. -/
def alertsOf (events : List Event) : List String :=
  events.filterMap (fun e => match e with
    | Event.alert m => some m
    | _ => none)

theorem foldl_applyEvent_phoneValue (es : List Event) (d : Dom) :
    (es.foldl applyEvent d).phoneValue = d.phoneValue := by
  induction es generalizing d with
  | nil => rfl
  | cons e es ih => cases e <;> simp [List.foldl, applyEvent, ih]

theorem foldl_applyEvent_messageValue (es : List Event) (d : Dom) :
    (es.foldl applyEvent d).messageValue = d.messageValue := by
  induction es generalizing d with
  | nil => rfl
  | cons e es ih => cases e <;> simp [List.foldl, applyEvent, ih]

theorem errorTag_append_data_head (m : String) :
    (errorTag ++ m).data.head? = some 'خ' := by
  rw [String.data_append]
  rfl

theorem errorTag_append_ne (m : String) (b : String)
    (hb : b.data.head? ≠ some 'خ') : errorTag ++ m ≠ b := by
  intro h
  apply hb
  rw [← h, errorTag_append_data_head]

theorem dropWhileWs_eq_nil (cs : List Char)
    (h : ∀ c ∈ cs, isJsWhitespace c = true) : dropWhileWs cs = [] := by
  induction cs with
  | nil => rfl
  | cons c cs ih =>
    have hc := h c (List.mem_cons_self c cs)
    simp only [dropWhileWs, hc, if_true]
    exact ih (fun x hx => h x (List.mem_cons_of_mem c hx))

theorem jsTrim_eq_empty (s : String)
    (h : ∀ c ∈ s.data, isJsWhitespace c = true) : jsTrim s = "" := by
  unfold jsTrim
  rw [dropWhileWs_eq_nil s.data h]
  rfl

theorem runDom_responseText (d : Dom) (net : FetchOutcome)
    (hg : ¬(jsTrim d.phoneValue = "" ∨ jsTrim d.messageValue = "")) :
    (runDom d net).responseText =
      match net with
      | FetchOutcome.throws msg => errorTag ++ msg
      | FetchOutcome.value v =>
        match getProp v "ok" with
        | Except.error e => errorTag ++ e
        | Except.ok w => if truthy w then successMessage else failureMessage := by
  unfold runDom
  simp only [runHandler]
  rw [if_neg hg]
  cases net with
  | throws m => rfl
  | value v =>
    cases hk : getProp v "ok" with
    | error e =>
      simp only [hk]
      rfl
    | ok w =>
      by_cases ht2 : truthy w = true
      · simp only [hk, ht2, if_true]
        rfl
      · simp only [hk, if_neg ht2]
        rfl

theorem no_empty_or (a b : String) (hp : a ≠ "") (ht : b ≠ "") :
    ¬(a = "" ∨ b = "") := by
  intro h
  cases h with
  | inl h2 => exact hp h2
  | inr h2 => exact ht h2

/-- Claim C1: with both trimmed inputs non-empty, the handler issues
exactly one request, a POST to /inbound carrying the JSON content-type
header and a body that is JSON.stringify of the object binding from to
the trimmed phone value and text to the trimmed message value. -/
theorem c1_single_post (d : Dom) (net : FetchOutcome)
    (hp : jsTrim d.phoneValue ≠ "") (ht : jsTrim d.messageValue ≠ "") :
    requestsOf (runHandler d net) =
      [inboundRequest (jsTrim d.phoneValue) (jsTrim d.messageValue)] ∧
    (inboundRequest (jsTrim d.phoneValue) (jsTrim d.messageValue)).method = "POST" ∧
    (inboundRequest (jsTrim d.phoneValue) (jsTrim d.messageValue)).url = inboundPath ∧
    (inboundRequest (jsTrim d.phoneValue) (jsTrim d.messageValue)).headers =
      [("Content-Type", "application/json")] ∧
    (inboundRequest (jsTrim d.phoneValue) (jsTrim d.messageValue)).body =
      jsonStringify (JsValue.obj
        [("from", JsValue.str (jsTrim d.phoneValue)),
         ("text", JsValue.str (jsTrim d.messageValue))]) := by
  refine ⟨?_, rfl, rfl, rfl, rfl⟩
  simp only [runHandler]
  rw [if_neg (no_empty_or _ _ hp ht)]
  cases net with
  | throws m2 => rfl
  | value v =>
    cases hk : getProp v "ok" with
    | error e =>
      simp only [hk]
      rfl
    | ok w =>
      by_cases ht2 : truthy w = true
      · simp only [hk, ht2, if_true]
        rfl
      · simp only [hk, if_neg ht2]
        rfl

/-- Witness for C1 at a concrete DOM state and network outcome. -/
theorem c1_single_post_w :
    requestsOf (runHandler ⟨" 0501 ", " hi ", ""⟩ (FetchOutcome.value JsValue.null)) =
      [inboundRequest (jsTrim " 0501 ") (jsTrim " hi ")] :=
  (c1_single_post ⟨" 0501 ", " hi ", ""⟩ (FetchOutcome.value JsValue.null)
    (by decide) (by decide)).1

/-- Claim C2: when either trimmed input is empty the handler only shows
the fixed alert and returns: no request is issued, no status write is
performed, and the DOM is unchanged. -/
theorem c2_empty_input_alert (d : Dom) (net : FetchOutcome)
    (h : jsTrim d.phoneValue = "" ∨ jsTrim d.messageValue = "") :
    runHandler d net = [Event.alert alertMessage] ∧
    requestsOf (runHandler d net) = [] ∧
    statusWrites (runHandler d net) = [] ∧
    runDom d net = d := by
  have h1 : runHandler d net = [Event.alert alertMessage] := by
    simp only [runHandler]
    rw [if_pos h]
  refine ⟨h1, ?_, ?_, ?_⟩
  · rw [h1]
    rfl
  · rw [h1]
    rfl
  · unfold runDom
    rw [h1]
    rfl

/-- Witness for C2 with an empty phone field. -/
theorem c2_empty_input_alert_w :
    runHandler ⟨"", "x", "r"⟩ (FetchOutcome.throws "boom") =
      [Event.alert alertMessage] :=
  (c2_empty_input_alert ⟨"", "x", "r"⟩ (FetchOutcome.throws "boom") (by decide)).1

/-- Claim C3: with non-empty trimmed inputs and a parsed body whose ok
property reads to a truthy value, the final status text is the fixed
success string. -/
theorem c3_truthy_ok_success (d : Dom) (v : JsValue) (w : Option JsValue)
    (hp : jsTrim d.phoneValue ≠ "") (ht : jsTrim d.messageValue ≠ "")
    (hok : getProp v "ok" = Except.ok w) (htr : truthy w = true) :
    (runDom d (FetchOutcome.value v)).responseText = successMessage := by
  rw [runDom_responseText d (FetchOutcome.value v) (no_empty_or _ _ hp ht)]
  simp [hok, htr]

/-- Witness for C3 with body (ok mapped to true). -/
theorem c3_truthy_ok_success_w :
    (runDom ⟨"0501", "hi", ""⟩
        (FetchOutcome.value (JsValue.obj [("ok", JsValue.bool true)]))).responseText =
      successMessage :=
  c3_truthy_ok_success ⟨"0501", "hi", ""⟩ (JsValue.obj [("ok", JsValue.bool true)])
    (some (JsValue.bool true)) (by decide) (by decide) rfl rfl

/-- Claim C4: with a parsed body whose ok property is falsy the final
status text is the fixed failure string, which is distinct from the
success string and from every error-tagged string of the catch path. -/
theorem c4_falsy_ok_failure (d : Dom) (v : JsValue) (w : Option JsValue)
    (hp : jsTrim d.phoneValue ≠ "") (ht : jsTrim d.messageValue ≠ "")
    (hok : getProp v "ok" = Except.ok w) (htr : truthy w = false) :
    (runDom d (FetchOutcome.value v)).responseText = failureMessage ∧
    failureMessage ≠ successMessage ∧
    ∀ m : String, failureMessage ≠ errorTag ++ m := by
  refine ⟨?_, by decide, ?_⟩
  · rw [runDom_responseText d (FetchOutcome.value v) (no_empty_or _ _ hp ht)]
    simp [hok, htr]
  · intro m hm
    exact errorTag_append_ne m failureMessage (by decide) hm.symm

/-- Witness for C4 with body (ok mapped to false). -/
theorem c4_falsy_ok_failure_w :
    (runDom ⟨"0501", "hi", ""⟩
        (FetchOutcome.value (JsValue.obj [("ok", JsValue.bool false)]))).responseText =
      failureMessage :=
  (c4_falsy_ok_failure ⟨"0501", "hi", ""⟩ (JsValue.obj [("ok", JsValue.bool false)])
    (some (JsValue.bool false)) (by decide) (by decide) rfl rfl).1

/-- Claim C5: when issuing the request, awaiting the response, or
parsing the body throws an error with message msg, the final status text
is exactly the error tag concatenated with msg. -/
theorem c5_thrown_error_text (d : Dom) (msg : String)
    (hp : jsTrim d.phoneValue ≠ "") (ht : jsTrim d.messageValue ≠ "") :
    (runDom d (FetchOutcome.throws msg)).responseText = errorTag ++ msg := by
  rw [runDom_responseText d (FetchOutcome.throws msg) (no_empty_or _ _ hp ht)]

/-- Witness for C5 with error message X. -/
theorem c5_thrown_error_text_w :
    (runDom ⟨"0501", "hi", ""⟩ (FetchOutcome.throws "X")).responseText =
      errorTag ++ "X" :=
  c5_thrown_error_text ⟨"0501", "hi", ""⟩ "X" (by decide) (by decide)

/-- Claim C6: with non-empty trimmed inputs the handler writes the
in-progress status as its first effect, before the request is issued. -/
theorem c6_progress_before_request (d : Dom) (net : FetchOutcome)
    (hp : jsTrim d.phoneValue ≠ "") (ht : jsTrim d.messageValue ≠ "") :
    ∃ tail, runHandler d net =
      Event.setStatus sendingMessage ::
      Event.request (inboundRequest (jsTrim d.phoneValue) (jsTrim d.messageValue)) ::
      tail := by
  simp only [runHandler]
  rw [if_neg (no_empty_or _ _ hp ht)]
  exact ⟨_, rfl⟩

/-- Witness for C6 at a concrete DOM state and network outcome. -/
theorem c6_progress_before_request_w :
    ∃ tail, runHandler ⟨"0501", "hi", ""⟩ (FetchOutcome.throws "X") =
      Event.setStatus sendingMessage ::
      Event.request (inboundRequest (jsTrim "0501") (jsTrim "hi")) ::
      tail :=
  c6_progress_before_request ⟨"0501", "hi", ""⟩ (FetchOutcome.throws "X")
    (by decide) (by decide)

/-- Claim C7: a whitespace-only input trims to the empty string and is
treated exactly like the empty string: the handler behaves identically
whether the field holds the whitespace string or the empty string, the
alert is shown, and no request is sent. -/
theorem c7_whitespace_only (s p m r : String) (net : FetchOutcome)
    (h : ∀ c ∈ s.data, isJsWhitespace c = true) :
    jsTrim s = "" ∧
    runHandler ⟨s, m, r⟩ net = runHandler ⟨"", m, r⟩ net ∧
    runHandler ⟨p, s, r⟩ net = runHandler ⟨p, "", r⟩ net ∧
    runHandler ⟨s, m, r⟩ net = [Event.alert alertMessage] ∧
    requestsOf (runHandler ⟨s, m, r⟩ net) = [] := by
  have hs := jsTrim_eq_empty s h
  have run1 : runHandler ⟨s, m, r⟩ net = [Event.alert alertMessage] := by
    simp only [runHandler]
    rw [if_pos (Or.inl hs)]
  have run2 : runHandler ⟨"", m, r⟩ net = [Event.alert alertMessage] := by
    simp only [runHandler]
    rw [if_pos (Or.inl (by decide))]
  have run3 : runHandler ⟨p, s, r⟩ net = [Event.alert alertMessage] := by
    simp only [runHandler]
    rw [if_pos (Or.inr hs)]
  have run4 : runHandler ⟨p, "", r⟩ net = [Event.alert alertMessage] := by
    simp only [runHandler]
    rw [if_pos (Or.inr (by decide))]
  refine ⟨hs, run1.trans run2.symm, run3.trans run4.symm, run1, ?_⟩
  rw [run1]
  rfl

/-- Witness for C7 with three spaces in either field. -/
theorem c7_whitespace_only_w :
    jsTrim "   " = "" ∧
    runHandler ⟨"   ", "hi", ""⟩ (FetchOutcome.value JsValue.null) =
      runHandler ⟨"", "hi", ""⟩ (FetchOutcome.value JsValue.null) ∧
    runHandler ⟨"0501", "   ", ""⟩ (FetchOutcome.value JsValue.null) =
      runHandler ⟨"0501", "", ""⟩ (FetchOutcome.value JsValue.null) ∧
    runHandler ⟨"   ", "hi", ""⟩ (FetchOutcome.value JsValue.null) =
      [Event.alert alertMessage] ∧
    requestsOf (runHandler ⟨"   ", "hi", ""⟩ (FetchOutcome.value JsValue.null)) = [] :=
  c7_whitespace_only "   " "0501" "hi" "" (FetchOutcome.value JsValue.null) (by decide)

/-- Claim C8: an invocation issues at most one request and leaves both
input field values unchanged: the only DOM field an invocation can
change is the response text. -/
theorem c8_frame (d : Dom) (net : FetchOutcome) :
    (requestsOf (runHandler d net)).length ≤ 1 ∧
    (runDom d net).phoneValue = d.phoneValue ∧
    (runDom d net).messageValue = d.messageValue := by
  refine ⟨?_, foldl_applyEvent_phoneValue _ _, foldl_applyEvent_messageValue _ _⟩
  by_cases hg : jsTrim d.phoneValue = "" ∨ jsTrim d.messageValue = ""
  · have h1 : runHandler d net = [Event.alert alertMessage] := by
      simp only [runHandler]
      rw [if_pos hg]
    rw [h1]
    decide
  · simp only [runHandler]
    rw [if_neg hg]
    cases net with
    | throws m2 => exact Nat.le_refl 1
    | value v =>
      cases hk : getProp v "ok" with
      | error e =>
        simp only [hk]
        exact Nat.le_refl 1
      | ok w =>
        by_cases ht2 : truthy w = true
        · simp only [hk, ht2, if_true]
          exact Nat.le_refl 1
        · simp only [hk, if_neg ht2]
          exact Nat.le_refl 1

/-- Claim C9: with non-empty trimmed inputs the final status text is the
success string, the failure string, or an error-tagged string, and it is
never the in-progress string once the invocation has completed. -/
theorem c9_settled_status (d : Dom) (net : FetchOutcome)
    (hp : jsTrim d.phoneValue ≠ "") (ht : jsTrim d.messageValue ≠ "") :
    ((runDom d net).responseText = successMessage ∨
     (runDom d net).responseText = failureMessage ∨
     ∃ m, (runDom d net).responseText = errorTag ++ m) ∧
    (runDom d net).responseText ≠ sendingMessage := by
  have hg := no_empty_or _ _ hp ht
  cases net with
  | throws m2 =>
    have hr : (runDom d (FetchOutcome.throws m2)).responseText = errorTag ++ m2 := by
      rw [runDom_responseText d (FetchOutcome.throws m2) hg]
    refine ⟨Or.inr (Or.inr ⟨m2, hr⟩), ?_⟩
    rw [hr]
    exact errorTag_append_ne m2 sendingMessage (by decide)
  | value v =>
    cases hk : getProp v "ok" with
    | error e =>
      have hr : (runDom d (FetchOutcome.value v)).responseText = errorTag ++ e := by
        rw [runDom_responseText d (FetchOutcome.value v) hg]
        simp only [hk]
      refine ⟨Or.inr (Or.inr ⟨e, hr⟩), ?_⟩
      rw [hr]
      exact errorTag_append_ne e sendingMessage (by decide)
    | ok w =>
      by_cases ht2 : truthy w = true
      · have hr : (runDom d (FetchOutcome.value v)).responseText = successMessage := by
          rw [runDom_responseText d (FetchOutcome.value v) hg]
          simp [hk, ht2]
        refine ⟨Or.inl hr, ?_⟩
        rw [hr]
        decide
      · have hr : (runDom d (FetchOutcome.value v)).responseText = failureMessage := by
          rw [runDom_responseText d (FetchOutcome.value v) hg]
          simp [hk, ht2]
        refine ⟨Or.inr (Or.inl hr), ?_⟩
        rw [hr]
        decide

/-- Witness for C9 at a concrete DOM state and a throwing outcome. -/
theorem c9_settled_status_w :
    ((runDom ⟨"0501", "hi", ""⟩ (FetchOutcome.throws "X")).responseText =
        successMessage ∨
     (runDom ⟨"0501", "hi", ""⟩ (FetchOutcome.throws "X")).responseText =
        failureMessage ∨
     ∃ m, (runDom ⟨"0501", "hi", ""⟩ (FetchOutcome.throws "X")).responseText =
        errorTag ++ m) ∧
    (runDom ⟨"0501", "hi", ""⟩ (FetchOutcome.throws "X")).responseText ≠
      sendingMessage :=
  c9_settled_status ⟨"0501", "hi", ""⟩ (FetchOutcome.throws "X")
    (by decide) (by decide)

/-- Claim C10: when the response body parses to JSON null, reading the
ok property throws inside the try block, so the catch path runs: the
final status text is an error-tagged string and is neither the fixed
failure string nor the success string. -/
theorem c10_null_body_catch (d : Dom)
    (hp : jsTrim d.phoneValue ≠ "") (ht : jsTrim d.messageValue ≠ "") :
    (∃ m, (runDom d (FetchOutcome.value JsValue.null)).responseText =
        errorTag ++ m) ∧
    (runDom d (FetchOutcome.value JsValue.null)).responseText ≠ failureMessage ∧
    (runDom d (FetchOutcome.value JsValue.null)).responseText ≠ successMessage := by
  have hv : (runDom d (FetchOutcome.value JsValue.null)).responseText =
      errorTag ++ "Cannot read properties of null (reading ok)" := by
    rw [runDom_responseText d (FetchOutcome.value JsValue.null)
        (no_empty_or _ _ hp ht)]
    rfl
  refine ⟨⟨_, hv⟩, ?_, ?_⟩
  · rw [hv]
    exact errorTag_append_ne _ failureMessage (by decide)
  · rw [hv]
    exact errorTag_append_ne _ successMessage (by decide)

/-- Witness for C10 at a concrete DOM state. -/
theorem c10_null_body_catch_w :
    (∃ m, (runDom ⟨"0501", "hi", ""⟩
        (FetchOutcome.value JsValue.null)).responseText = errorTag ++ m) ∧
    (runDom ⟨"0501", "hi", ""⟩
        (FetchOutcome.value JsValue.null)).responseText ≠ failureMessage ∧
    (runDom ⟨"0501", "hi", ""⟩
        (FetchOutcome.value JsValue.null)).responseText ≠ successMessage :=
  c10_null_body_catch ⟨"0501", "hi", ""⟩ (by decide) (by decide)
